import Mathlib

deriving instance DecidableEq for Except

/-!
Verification of the asiaq alarm-configuration resolution engine
(`disco_aws_automation/disco_alarm_config.py`, with the load-balancer naming
helpers from `disco_elb.py`).

The Python code is shallowly embedded: dictionaries become association lists
with last-binding-wins lookup, Python exceptions become an explicit error type
threaded through `Except`, and the mutable resolver object becomes explicit
state passing.  String `split`/`join` on single-character separators are
modelled on the character list of a string via `List.splitOn` /
`List.intercalate`, which coincide with Python semantics for single-character
separators.
-/

namespace Asiaq

/-! ### Python primitives -/

/-- Python exceptions that the alarm-configuration code can raise. -/
inductive PyErr where
  | keyError (key : String)
  | valueError
  | alarmConfigError (msg : String)
deriving DecidableEq

/-- A Python dictionary with string keys and values, modelled as an
association list where the *last* binding for a key wins (so `update` and
item assignment are plain list append). -/
abbrev Dict := List (String × String)

/-- Dictionary lookup: the last binding for the key, if any (`d.get(k)`). -/
def dget (d : Dict) (k : String) : Option String :=
  (d.reverse.find? (fun p => p.1 == k)).map (fun p => p.2)

/-- Item assignment `d[k] = v`. -/
def dset (d : Dict) (k v : String) : Dict := d ++ [(k, v)]

/-- Python `d.update(o)`: every binding of `o` overwrites `d`. -/
def dupdate (d o : Dict) : Dict := d ++ o

/-- Python `k in d`. -/
def dmem (d : Dict) (k : String) : Bool := (dget d k).isSome

/-- Python `str.split(sep)` for a single-character separator, on the
character list of the string. -/
def pySplit (s : String) (sep : Char) : List String :=
  (s.data.splitOn sep).map (fun l => String.mk l)

/-- Python `sep.join(xs)` for a single-character separator. -/
def pyJoin (sep : Char) (xs : List String) : String :=
  String.mk (List.intercalate [sep] (xs.map String.data))

/-- Python `str.strip()`: surrounding whitespace removed, on characters. -/
def pyStrip (cs : List Char) : List Char :=
  ((cs.dropWhile Char.isWhitespace).reverse.dropWhile Char.isWhitespace).reverse

/-- Python `str.lower()` (ASCII letters, as for Python 2 byte strings). -/
def pyLower (s : String) : String := String.mk (s.data.map Char.toLower)

/-- Python slicing `s[:n]`. -/
def pyTake (s : String) (n : Nat) : String := String.mk (s.data.take n)

/-- Value of a nonempty all-digit character list, `none` otherwise. -/
def digitsVal (cs : List Char) : Option Nat :=
  if cs ≠ [] ∧ cs.all Char.isDigit then
    some (cs.foldl (fun acc c => acc * 10 + (c.toNat - 48)) 0)
  else none

/-- Python `int(s)` on a string: optional surrounding whitespace, an optional
sign, then one or more decimal digits; `none` models `ValueError`. -/
def pyIntParse (s : String) : Option Int :=
  match pyStrip s.data with
  | [] => none
  | c :: rest =>
    if c = '-' then (digitsVal rest).map (fun n => -(n : Int))
    else if c = '+' then (digitsVal rest).map (fun n => (n : Int))
    else (digitsVal (c :: rest)).map (fun n => (n : Int))

/-- Python 2 `str.isdigit`: nonempty and all ASCII digits. -/
def pyIsdigit (s : String) : Bool :=
  !s.data.isEmpty && s.data.all Char.isDigit

/-- Python `repr` of a string value, as used when a dict is formatted into an
error message. -/
def strRepr (s : String) : String := "\x27" ++ s ++ "\x27"

/-- Python `str(dict)` as used by `"{1}".format(options)`: the bindings in
order, rendered Python-style. -/
def dictRepr (d : Dict) : String :=
  "\x7b" ++
    String.intercalate ", " (d.map (fun p => strRepr p.1 ++ ": " ++ strRepr p.2)) ++
  "\x7d"

/-- Python `str(list)` of a string list, as in the level error message. -/
def listRepr (xs : List String) : String :=
  "[" ++ String.intercalate ", " (xs.map strRepr) ++ "]"

/-- Modelled from the spec: the helper `is_truthy` lives in
`disco_aws_util.py`, which is not among the provided sources; the spec only
says a `log_pattern_metric` option value "marks the metric as log-derived".
We model a value as truthy when, lower-cased, it is "true", "yes" or "1";
an absent value (`None`) is falsy. -/
def is_truthy (s : Option String) : Bool :=
  match s with
  | none => false
  | some v => pyLower v == "true" || pyLower v == "yes" || pyLower v == "1"

/-! ### Constants and collaborators -/

/-- `NOTIFICATION_LEVELS` from `disco_alarm_config.py`. -/
def NOTIFICATION_LEVELS : List String := ["critical", "info"]

/-- `NOTIFICATION_SECTION_NAME`. -/
def NOTIFICATION_SECTION_NAME : String := "notifications"

/-- `DEFAULT_SECTION_NAME`. -/
def DEFAULT_SECTION_NAME : String := "defaults"

/-- `DiscoELB.get_elb_name` from `disco_elb.py`: environment and hostclass
joined with a dash (no `-test` suffix here since `get_elb_id` is called with
the default `testing=False`), stripped to letters, digits and dashes, with a
`CommandError` (modelled as a distinct message) past 255 characters. -/
def get_elb_name (environment_name hostclass : String) (testing : Bool) :
    Except PyErr String :=
  let name := environment_name ++ "-" ++ hostclass
  let name := if testing then name ++ "-test" else name
  let elb_name := String.mk (name.data.filter
    (fun c => c.isAlpha || c.isDigit || c == '-'))
  if elb_name.length > 255 then
    .error (.alarmConfigError ("ELB name " ++ elb_name ++ " is over 255 characters"))
  else .ok elb_name

/-- `DiscoELB.get_elb_id`: the ELB name hashed and truncated to 32
characters.  The SHA-256 hex digest itself comes from the Python standard
library, so it enters the model as an abstract function argument. -/
def get_elb_id (sha256hex : String → String) (environment_name hostclass : String) :
    Except PyErr String :=
  (get_elb_name environment_name hostclass false).map
    (fun n => pyTake (sha256hex n) 32)

/-! ### DiscoAlarmConfig -/

/-- The fields of a constructed `DiscoAlarmConfig` instance. -/
structure DiscoAlarmConfig where
  nspace : String
  metric_name : String
  hostclass : String
  environment : String
  team : String
  duration : Int
  period : Int
  statistic : String
  custom_metric : Bool
  log_pattern_metric : Bool
  autoscaling_group_name : Option String
  es_domain_name : Option String
  es_client_id : Option String
  level : String
  threshold : Int
  threshold_type : String
deriving DecidableEq

/-- `options[k]` with Python `KeyError` on a missing key. -/
def dgetE (d : Dict) (k : String) : Except PyErr String :=
  match dget d k with
  | some v => .ok v
  | none => .error (.keyError k)

/-- `int(s)` with Python `ValueError` when unparsable. -/
def pyIntE (s : String) : Except PyErr Int :=
  match pyIntParse s with
  | some n => .ok n
  | none => .error .valueError

/-- `DiscoAlarmConfig.__init__(options, maximum)`: field extraction and
validation in source order. -/
def DiscoAlarmConfig.mk? (options : Dict) (maximum : Bool) :
    Except PyErr DiscoAlarmConfig := do
  let nspace ← dgetE options "namespace"
  let metric_name ← dgetE options "metric_name"
  let hostclass ← dgetE options "hostclass"
  let environment ← dgetE options "environment"
  let team ← dgetE options "team"
  let duration ← pyIntE (← dgetE options "duration")
  let period ← pyIntE (← dgetE options "period")
  let statistic ← dgetE options "statistic"
  let custom_metric_str ← dgetE options "custom_metric"
  let custom_metric := pyLower custom_metric_str == "true"
  let log_pattern_metric := is_truthy (some ((dget options "log_pattern_metric").getD ""))
  let autoscaling_group_name := dget options "autoscaling_group_name"
  let es_domain_name := dget options "es_domain_name"
  let es_client_id := dget options "es_client_id"
  let level ← dgetE options "level"
  if !NOTIFICATION_LEVELS.contains level then
    throw (.alarmConfigError
      ("Level for " ++ metric_name ++ " must be one of " ++ listRepr NOTIFICATION_LEVELS))
  let threshold ← pyIntE (← dgetE options (if maximum then "threshold_max" else "threshold_min"))
  pure {
    nspace, metric_name, hostclass, environment, team, duration, period,
    statistic, custom_metric, log_pattern_metric, autoscaling_group_name,
    es_domain_name, es_client_id, level, threshold,
    threshold_type := if maximum then "max" else "min"
  }

/-- Dimension maps may carry Python `None` values (for example a missing
autoscaling group name), so values are `Option String`. -/
abbrev DimDict := List (String × Option String)

/-- The `dimensions` property of `DiscoAlarmConfig`.  Only the load-balancer
branch can raise (oversized ELB name), hence the `Except`. -/
def DiscoAlarmConfig.dimensions (sha256hex : String → String)
    (a : DiscoAlarmConfig) : Except PyErr DimDict :=
  if a.log_pattern_metric then .ok []
  else if a.nspace == "AWS/RDS" then
    .ok [("DBInstanceIdentifier", some (pyJoin '-' [a.environment, a.hostclass]))]
  else if a.nspace == "AWS/ELB" then
    (get_elb_id sha256hex a.environment a.hostclass).map
      (fun i => [("LoadBalancerName", some i)])
  else if a.nspace == "AWS/ES" then
    .ok [("DomainName", a.es_domain_name), ("ClientId", a.es_client_id)]
  else if a.custom_metric then
    .ok [("env_hostclass", some (pyJoin '_' [a.environment, a.hostclass]))]
  else
    .ok [("AutoScalingGroupName", a.autoscaling_group_name)]

/-- The `notification_topic` property. -/
def DiscoAlarmConfig.notification_topic (a : DiscoAlarmConfig) : String :=
  pyJoin '_' [a.team, a.environment, a.level]

/-- The `name` property. -/
def DiscoAlarmConfig.name (a : DiscoAlarmConfig) : String :=
  pyJoin '_' [a.team, a.environment, a.hostclass, a.metric_name, a.threshold_type]

/-- The result of `decode_alarm_name`: the Python code returns a dict that is
either empty (modelled as `none`) or has these five fields. -/
structure AlarmNameParts where
  team : Option String
  env : String
  hostclass : String
  metric_name : String
  threshold_type : String
deriving DecidableEq

/-- `DiscoAlarmConfig.decode_alarm_name`. -/
def decode_alarm_name (name : String) : Option AlarmNameParts :=
  let parts := pySplit name '_'
  if parts.length ≥ 5 then
    some {
      team := some (parts.getD 0 ""),
      env := parts.getD 1 "",
      hostclass := parts.getD 2 "",
      metric_name := pyJoin '_' ((parts.drop 3).dropLast),
      threshold_type := parts.getD (parts.length - 1) ""
    }
  else if parts.length == 4 then
    some {
      team := none,
      env := parts.getD 0 "",
      hostclass := parts.getD 1 "",
      metric_name := parts.getD 2 "",
      threshold_type := parts.getD 3 ""
    }
  else none

/-! ### DiscoAlarmsConfig (the resolver) -/

/-- The read contract of the loaded configuration: `sections()` and
`items(section)`.  `items` is total; within `get_alarms` it is only applied
to sections that exist (`has_section` guards the rest), and for a missing
`defaults` section the empty mapping matches `dict(...) or {}`. -/
structure ConfigStore where
  sections : List String
  itemsMap : String → Dict

/-- `config.has_section(name)`. -/
def ConfigStore.has_section (c : ConfigStore) (s : String) : Bool :=
  c.sections.contains s

/-- The search-domain collaborator used for the `AWS/ES` namespace
(`DiscoElasticSearch` interface: `get_domain_name`, `get_client_id`). -/
structure SearchDomainLookup where
  get_domain_name : String → String
  get_client_id : String → String

/-- The state of a `DiscoAlarmsConfig` instance.  `autoscale` is the
autoscaling collaborator, exposed as the `group.name` returned by
`get_existing_group(hostclass)`; `_defaults` is the memo cell behind the
`defaults` property. -/
structure DiscoAlarmsConfig where
  config : ConfigStore
  environment : String
  elasticsearch : Option SearchDomainLookup
  autoscale : String → String
  _defaults : Option Dict

/-- `DiscoAlarmsConfig.get_defaults`: `dict(self.config.items('defaults')) or {}`. -/
def get_defaults (c : ConfigStore) : Dict :=
  c.itemsMap DEFAULT_SECTION_NAME

/-- The `defaults` property:
`self._defaults = self._defaults or self.get_defaults(); return self._defaults`. -/
def defaultsProp (st : DiscoAlarmsConfig) : Dict × DiscoAlarmsConfig :=
  let cur := st._defaults.getD []
  let d := if cur.isEmpty then get_defaults st.config else cur
  (d, { st with _defaults := some d })

/-- `DiscoAlarmsConfig._decode_section_name`. -/
def decode_section_name (sect : String) :
    Except PyErr (String × String × String × Option String) :=
  let section_segments := pySplit sect '.'
  if section_segments.length ≥ 4 then
    .ok (section_segments.getD 0 "",
         section_segments.getD 1 "",
         pyJoin '.' ((section_segments.drop 2).dropLast),
         some (section_segments.getD (section_segments.length - 1) ""))
  else if section_segments.length == 3 then
    .ok (section_segments.getD 0 "",
         section_segments.getD 1 "",
         section_segments.getD 2 "",
         none)
  else
    .error (.alarmConfigError ("Skipping non-alarm like config section " ++ sect ++ "."))

/-- `DiscoAlarmsConfig._get_alarm_specification_dict`.  Returns the merged
options (`none` when a more specific hostclass section shadows the generic
pass) together with the possibly-updated resolver state. -/
def specDict (st : DiscoAlarmsConfig) (team nspace metric_name hostclass : String)
    (hostclass_specific : Bool) (autoscaling_group_name : Option String) :
    Option Dict × DiscoAlarmsConfig :=
  let defs := (defaultsProp st).1
  let st := (defaultsProp st).2
  let options := defs
  let parent_section_name := pyJoin '.' [team, nspace, metric_name]
  let child_section_name := pyJoin '.' [team, nspace, metric_name, hostclass]
  let merged :=
    if hostclass_specific then
      let options :=
        if st.config.has_section parent_section_name then
          dupdate options (st.config.itemsMap parent_section_name)
        else options
      some (dupdate options (st.config.itemsMap child_section_name))
    else
      if st.config.has_section child_section_name then
        none
      else
        some (dupdate options (st.config.itemsMap parent_section_name))
  match merged with
  | none => (none, st)
  | some options =>
    let options := dset options "team" team
    let options := dset options "namespace" nspace
    let options := dset options "metric_name" metric_name
    let options := dset options "hostclass" hostclass
    let options := dset options "environment" st.environment
    let agsTruthy := match autoscaling_group_name with
      | some a => !a.isEmpty
      | none => false
    let options :=
      if agsTruthy then
        dset options "autoscaling_group_name" (autoscaling_group_name.getD "")
      else if nspace == "AWS/EC2" then
        dset options "autoscaling_group_name" (st.autoscale hostclass)
      else options
    let options :=
      match st.elasticsearch with
      | some es =>
        if nspace == "AWS/ES" then
          let domain_name := es.get_domain_name hostclass
          dset (dset options "es_domain_name" domain_name)
            "es_client_id" (es.get_client_id domain_name)
        else options
      | none => options
    let options :=
      if is_truthy (dget options "log_pattern_metric") then
        dset (dset options "namespace" (nspace ++ "/" ++ st.environment))
          "metric_name" (hostclass ++ "-" ++ metric_name)
      else options
    (some options, st)

/-- One iteration of the threshold loop at the end of `get_alarms`, for a
given threshold key. -/
def thresholdStep (options : Dict) (key : String) (alarms : List DiscoAlarmConfig) :
    Except PyErr (List DiscoAlarmConfig) :=
  if dmem options key then
    match dget options key with
    | some v =>
      if pyIsdigit v then
        (DiscoAlarmConfig.mk? options (key == "threshold_max")).map
          (fun a => alarms ++ [a])
      else
        .error (.alarmConfigError
          ("Not a valid threshold value for " ++ key ++ ": " ++ dictRepr options))
    | none => .ok alarms
  else .ok alarms

/-- The `for threshold in ["threshold_max", "threshold_min"]` loop. -/
def thresholdLoop (options : Dict) (alarms : List DiscoAlarmConfig) :
    Except PyErr (List DiscoAlarmConfig) := do
  let alarms ← thresholdStep options "threshold_max" alarms
  thresholdStep options "threshold_min" alarms

/-- The section loop of `DiscoAlarmsConfig.get_alarms`. -/
def getAlarmsGo (hostclass : String) (autoscaling_group_name : Option String) :
    DiscoAlarmsConfig → List String → List DiscoAlarmConfig →
    Except PyErr (List DiscoAlarmConfig) × DiscoAlarmsConfig
  | st, [], alarms => (.ok alarms, st)
  | st, sect :: rest, alarms =>
    match decode_section_name sect with
    | .error e =>
      if [NOTIFICATION_SECTION_NAME, DEFAULT_SECTION_NAME].contains sect then
        getAlarmsGo hostclass autoscaling_group_name st rest alarms
      else (.error e, st)
    | .ok (team, nspace, metric_name, section_hostclass) =>
      let hcSkip := match section_hostclass with
        | some s => !s.isEmpty && s != hostclass
        | none => false
      if hcSkip then
        getAlarmsGo hostclass autoscaling_group_name st rest alarms
      else if nspace == "AWS/ES" && st.elasticsearch.isNone then
        getAlarmsGo hostclass autoscaling_group_name st rest alarms
      else
        let res := specDict st team nspace metric_name hostclass
          (section_hostclass == some hostclass) autoscaling_group_name
        let st := res.2
        match res.1 with
        | none => getAlarmsGo hostclass autoscaling_group_name st rest alarms
        | some options =>
          if options.isEmpty then
            getAlarmsGo hostclass autoscaling_group_name st rest alarms
          else
            match thresholdLoop options alarms with
            | .ok alarms => getAlarmsGo hostclass autoscaling_group_name st rest alarms
            | .error e => (.error e, st)

/-- `DiscoAlarmsConfig.get_alarms`. -/
def get_alarms (st : DiscoAlarmsConfig) (hostclass : String)
    (autoscaling_group_name : Option String) :
    Except PyErr (List DiscoAlarmConfig) × DiscoAlarmsConfig :=
  getAlarmsGo hostclass autoscaling_group_name st st.config.sections []

/-- `DiscoNotification`. -/
structure DiscoNotification where
  name : String
  endpoints : List String
deriving DecidableEq

/-- The body of the loop in `DiscoAlarmsConfig.get_notifications` for one
`(key, value)` pair from the notifications section: `none` means the entry
is skipped. -/
def notifStep (environment : String) (notification_name endpoint_str : String) :
    Except PyErr (Option DiscoNotification) :=
  let notification_parts := pySplit notification_name '_'
  if notification_parts.length < 3 then
    .error (.alarmConfigError
      ("Underscores must separate team name, env name and notification level: " ++
        notification_name))
  else
    let level := notification_parts.getD (notification_parts.length - 1) ""
    let env := notification_parts.getD 1 ""
    if env != environment then .ok none
    else if !NOTIFICATION_LEVELS.contains level then
      .error (.alarmConfigError ("Unsupported notification level: " ++ level))
    else .ok (some ⟨notification_name, pySplit endpoint_str ','⟩)

/-- `DiscoAlarmsConfig.get_notifications`. -/
def get_notifications (st : DiscoAlarmsConfig) :
    Except PyErr (List DiscoNotification) :=
  let options := st.config.itemsMap NOTIFICATION_SECTION_NAME
  options.foldlM
    (fun acc kv => do
      match ← notifStep st.environment kv.1 kv.2 with
      | some n => pure (acc ++ [n])
      | none => pure acc)
    []

/-- The option keys written by the resolver itself after the three config
layers: the synthesized identity fields and the collaborator-augmented
fields. -/
def synthesizedKeys : List String :=
  ["team", "namespace", "metric_name", "hostclass", "environment",
   "autoscaling_group_name", "es_domain_name", "es_client_id"]

/-- The defaults memo cell is in a state the `defaults` property can have
produced: untouched, or holding the defaults section. -/
def memoOk (st : DiscoAlarmsConfig) : Prop :=
  st._defaults = none ∨ st._defaults = some (get_defaults st.config)

/-- The resolver state with the defaults memo filled; the only state change
`get_alarms` can make. -/
def setMemo (st : DiscoAlarmsConfig) : DiscoAlarmsConfig :=
  { st with _defaults := some (get_defaults st.config) }

/-! ### Concrete fixtures used to instantiate the theorems -/

/-- A config with a defaults section, a parent section and a hostclass child
section for the same team/namespace/metric. -/
def cfgMerge : ConfigStore :=
  { sections := ["defaults", "team1.ns1.m1", "team1.ns1.m1.host1"],
    itemsMap := fun s =>
      if s == "defaults" then [("period", "60")]
      else if s == "team1.ns1.m1" then [("period", "300"), ("statistic", "Average")]
      else if s == "team1.ns1.m1.host1" then [("period", "120")]
      else [] }

/-- A fresh resolver over `cfgMerge`. -/
def stMerge : DiscoAlarmsConfig :=
  { config := cfgMerge, environment := "prod", elasticsearch := none,
    autoscale := fun _ => "asg", _defaults := none }

/-- A config whose hostclass section carries both thresholds, with all
remaining alarm options in the defaults section. -/
def cfgBoth : ConfigStore :=
  { sections := ["defaults", "notifications", "t.ns.m.h"],
    itemsMap := fun s =>
      if s == "defaults" then
        [("duration", "3"), ("period", "60"), ("statistic", "Average"),
         ("custom_metric", "false"), ("level", "critical")]
      else if s == "t.ns.m.h" then [("threshold_max", "80"), ("threshold_min", "10")]
      else [] }

/-- A fresh resolver over `cfgBoth`. -/
def stBoth : DiscoAlarmsConfig :=
  { config := cfgBoth, environment := "prod", elasticsearch := none,
    autoscale := fun _ => "asg", _defaults := none }

/-- A config containing a malformed (single-segment, non-reserved) section. -/
def cfgBad : ConfigStore :=
  { sections := ["defaults", "badsection", "t.ns.m.h"],
    itemsMap := fun _ => [] }

/-- A fresh resolver over `cfgBad`. -/
def stBad : DiscoAlarmsConfig :=
  { config := cfgBad, environment := "prod", elasticsearch := none,
    autoscale := fun _ => "asg", _defaults := none }

/-- A complete, valid option set carrying both threshold keys. -/
def optsFull : Dict :=
  [("namespace", "ns"), ("metric_name", "m"), ("hostclass", "h"),
   ("environment", "e"), ("team", "t"), ("duration", "3"), ("period", "60"),
   ("statistic", "Average"), ("custom_metric", "false"), ("level", "critical"),
   ("threshold_max", "80"), ("threshold_min", "10")]

/-- The alarm record produced from `optsFull` on the max side. -/
def alarmMaxFx : DiscoAlarmConfig :=
  { nspace := "ns", metric_name := "m", hostclass := "h", environment := "e",
    team := "t", duration := 3, period := 60, statistic := "Average",
    custom_metric := false, log_pattern_metric := false,
    autoscaling_group_name := none, es_domain_name := none, es_client_id := none,
    level := "critical", threshold := 80, threshold_type := "max" }

/-- The alarm record produced from `optsFull` on the min side. -/
def alarmMinFx : DiscoAlarmConfig :=
  { alarmMaxFx with threshold := 10, threshold_type := "min" }

/-- An option set whose `threshold_max` is not a digit string. -/
def optsBadThresh : Dict := [("threshold_max", "notanumber")]

/-- The alarm record produced from `optsNeg`: constructed successfully with a
negative duration. -/
def alarmNeg : DiscoAlarmConfig :=
  { alarmMaxFx with duration := -5 }

/-- A complete, valid option set whose `duration` is the negative integer
literal `-5`. -/
def optsNeg : Dict :=
  [("namespace", "ns"), ("metric_name", "m"), ("hostclass", "h"),
   ("environment", "e"), ("team", "t"), ("duration", "-5"), ("period", "60"),
   ("statistic", "Average"), ("custom_metric", "false"), ("level", "critical"),
   ("threshold_max", "80")]

/-- `optsNeg` with a positive duration and a non-integer period. -/
def optsBadPeriod : Dict :=
  [("namespace", "ns"), ("metric_name", "m"), ("hostclass", "h"),
   ("environment", "e"), ("team", "t"), ("duration", "3"), ("period", "sixty"),
   ("statistic", "Average"), ("custom_metric", "false"), ("level", "critical"),
   ("threshold_max", "80")]

/-! ### Dictionary lemmas -/

theorem dget_nil (k : String) : dget [] k = none := rfl

theorem dget_singleton (key v k : String) :
    dget [(key, v)] k = if k = key then some v else none := by
  by_cases h : k = key
  · subst h
    simp [dget, List.find?]
  · have hb : (key == k) = false := beq_eq_false_iff_ne.mpr (Ne.symm h)
    simp [dget, List.find?, hb, h]

theorem dget_append (a b : Dict) (k : String) :
    dget (a ++ b) k = (dget b k).or (dget a k) := by
  unfold dget
  rw [List.reverse_append, List.find?_append]
  cases h : b.reverse.find? (fun p => p.1 == k) <;>
    simp [Option.or, h]

theorem dget_dset_same (d : Dict) (k v : String) :
    dget (dset d k v) k = some v := by
  unfold dset
  rw [dget_append]
  simp [dget]

theorem dget_dset_other (d : Dict) (k v : String) (k' : String) (h : k' ≠ k) :
    dget (dset d k v) k' = dget d k' := by
  unfold dset
  rw [dget_append]
  simp [dget, Ne.symm h]

theorem dget_cons (key v : String) (d : Dict) (k : String) :
    dget ((key, v) :: d) k = (dget d k).or (if k = key then some v else none) := by
  show dget ([(key, v)] ++ d) k = _
  rw [dget_append, dget_singleton]

/-! ### State lemmas for the defaults memo -/

theorem defaultsProp_fst (st : DiscoAlarmsConfig) (h : memoOk st) :
    (defaultsProp st).1 = get_defaults st.config := by
  rcases h with h | h <;> simp [defaultsProp, h]

theorem defaultsProp_snd (st : DiscoAlarmsConfig) (h : memoOk st) :
    (defaultsProp st).2 = { st with _defaults := some (get_defaults st.config) } := by
  rcases h with h | h <;> simp [defaultsProp, h]

/-! ### Constructor lemmas -/

theorem dgetE_ok (d : Dict) (k v : String) :
    dgetE d k = .ok v ↔ dget d k = some v := by
  unfold dgetE
  cases h : dget d k <;> simp

theorem pyIntE_ok (s : String) (n : Int) :
    pyIntE s = .ok n ↔ pyIntParse s = some n := by
  unfold pyIntE
  cases h : pyIntParse s <;> simp

theorem mk?_threshold_type (o : Dict) (m : Bool) (a : DiscoAlarmConfig)
    (h : DiscoAlarmConfig.mk? o m = .ok a) :
    a.threshold_type = if m then "max" else "min" := by
  unfold DiscoAlarmConfig.mk? at h
  simp only [bind, Except.bind, pure, Except.pure, throw, throwThe, MonadExcept.throw,
    Except.instMonad] at h
  repeat' split at h
  all_goals try (cases h)
  all_goals simp_all

theorem mk?_parses_ints (o : Dict) (m : Bool) (a : DiscoAlarmConfig)
    (h : DiscoAlarmConfig.mk? o m = .ok a) :
    (∃ s, dget o "duration" = some s ∧ pyIntParse s = some a.duration) ∧
    (∃ s, dget o "period" = some s ∧ pyIntParse s = some a.period) := by
  unfold DiscoAlarmConfig.mk? at h
  simp only [bind, Except.bind, pure, Except.pure, throw, throwThe, MonadExcept.throw,
    Except.instMonad] at h
  repeat' split at h
  all_goals try (cases h)
  all_goals simp_all [dgetE_ok, pyIntE_ok]

theorem pyJoin_five_append (t e h m x : String) :
    pyJoin '_' [t, e, h, m, x] = pyJoin '_' [t, e, h, m] ++ ("_" ++ x) := by
  apply String.ext
  simp [pyJoin, List.intercalate]

/-- The alarm name is the four identity fields joined with `_`, followed by
`_` and the threshold type. -/
theorem name_split (a : DiscoAlarmConfig) :
    a.name = pyJoin '_' [a.team, a.environment, a.hostclass, a.metric_name] ++
      ("_" ++ a.threshold_type) :=
  pyJoin_five_append a.team a.environment a.hostclass a.metric_name a.threshold_type

/-! ### Claim theorems -/

/-- C5.  Alarm-name decoding: splitting an alarm name on `_`, a name with at
least 5 segments decodes to team = parts 0, env = parts 1, hostclass =
parts 2, metric name = parts 3..-1 joined with `_`, threshold type = last
part; exactly 4 segments decodes with team = `None`; fewer than 4 segments
returns an empty result without raising any exception. -/
theorem c5_decode_alarm_name (name : String) :
    ((pySplit name '_').length ≥ 5 →
      decode_alarm_name name = some {
        team := some ((pySplit name '_').getD 0 ""),
        env := (pySplit name '_').getD 1 "",
        hostclass := (pySplit name '_').getD 2 "",
        metric_name := pyJoin '_' (((pySplit name '_').drop 3).dropLast),
        threshold_type := (pySplit name '_').getD ((pySplit name '_').length - 1) "" }) ∧
    ((pySplit name '_').length = 4 →
      decode_alarm_name name = some {
        team := none,
        env := (pySplit name '_').getD 0 "",
        hostclass := (pySplit name '_').getD 1 "",
        metric_name := (pySplit name '_').getD 2 "",
        threshold_type := (pySplit name '_').getD 3 "" }) ∧
    ((pySplit name '_').length < 4 → decode_alarm_name name = none) := by
  refine ⟨fun h => ?_, fun h => ?_, fun h => ?_⟩
  · simp [decode_alarm_name, h]
  · simp [decode_alarm_name, h]
  · have h5 : ¬ (pySplit name '_').length ≥ 5 := by omega
    have h4 : (pySplit name '_').length ≠ 4 := by omega
    simp [decode_alarm_name, h5, h4]

/-- Witness for C5 at three concrete alarm names, one per branch. -/
theorem c5_decode_alarm_name_witness :
    decode_alarm_name "team_env_host_metric_max" =
      some ⟨some "team", "env", "host", "metric", "max"⟩ ∧
    decode_alarm_name "env_host_metric_max" =
      some ⟨none, "env", "host", "metric", "max"⟩ ∧
    decode_alarm_name "a_b" = none := by
  refine ⟨?_, ?_, ?_⟩
  · exact ((c5_decode_alarm_name "team_env_host_metric_max").1 (by decide)).trans (by decide)
  · exact ((c5_decode_alarm_name "env_host_metric_max").2.1 (by decide)).trans (by decide)
  · exact (c5_decode_alarm_name "a_b").2.2 (by decide)

/-- A section name with fewer than three dot-segments makes
`decode_section_name` raise, with the section named in the message. -/
theorem decode_section_name_short (sect : String)
    (h : (pySplit sect '.').length < 3) :
    decode_section_name sect =
      .error (.alarmConfigError
        ("Skipping non-alarm like config section " ++ sect ++ ".")) := by
  have h4 : ¬ (pySplit sect '.').length ≥ 4 := by omega
  have h3 : (pySplit sect '.').length ≠ 3 := by omega
  simp [decode_section_name, h4, h3]

/-- A malformed non-reserved section anywhere in the remaining section list
makes the `get_alarms` loop end in an error. -/
theorem getAlarmsGo_error_of_malformed (hostclass : String) (ags : Option String)
    (s : String) (hlen : (pySplit s '.').length < 3)
    (hn : s ≠ NOTIFICATION_SECTION_NAME) (hd : s ≠ DEFAULT_SECTION_NAME) :
    ∀ (secs : List String) (st : DiscoAlarmsConfig) (alarms : List DiscoAlarmConfig),
      s ∈ secs → ∃ e, (getAlarmsGo hostclass ags st secs alarms).1 = .error e := by
  intro secs
  induction secs with
  | nil => intro st alarms hmem; exact absurd hmem (List.not_mem_nil s)
  | cons sect rest ih =>
    intro st alarms hmem
    rcases List.mem_cons.mp hmem with rfl | hmem'
    · rw [getAlarmsGo, decode_section_name_short s hlen]
      have hres : [NOTIFICATION_SECTION_NAME, DEFAULT_SECTION_NAME].contains s = false := by
        simp [List.contains, hn, hd]
      simp only [hres, Bool.false_eq_true, if_false]
      exact ⟨_, rfl⟩
    · rw [getAlarmsGo]
      dsimp only
      repeat' first
        | exact ih _ _ hmem'
        | exact ⟨_, rfl⟩
        | split

/-- C4.  Section-name decoding: at least 4 dot-segments decode to
team / namespace / dot-joined middle / hostclass, exactly 3 decode with no
hostclass, fewer than 3 raise a `ConfigError` naming the section; and during
`get_alarms` any such malformed section other than the reserved
`notifications` and `defaults` sections aborts the entire resolution with an
error, for every hostclass. -/
theorem c4_section_decoding :
    (∀ sect : String,
      ((pySplit sect '.').length ≥ 4 →
        decode_section_name sect =
          .ok ((pySplit sect '.').getD 0 "",
               (pySplit sect '.').getD 1 "",
               pyJoin '.' (((pySplit sect '.').drop 2).dropLast),
               some ((pySplit sect '.').getD ((pySplit sect '.').length - 1) ""))) ∧
      ((pySplit sect '.').length = 3 →
        decode_section_name sect =
          .ok ((pySplit sect '.').getD 0 "",
               (pySplit sect '.').getD 1 "",
               (pySplit sect '.').getD 2 "",
               none)) ∧
      ((pySplit sect '.').length < 3 →
        decode_section_name sect =
          .error (.alarmConfigError
            ("Skipping non-alarm like config section " ++ sect ++ ".")))) ∧
    (∀ (st : DiscoAlarmsConfig) (hostclass : String) (ags : Option String) (s : String),
      s ∈ st.config.sections → (pySplit s '.').length < 3 →
      s ≠ NOTIFICATION_SECTION_NAME → s ≠ DEFAULT_SECTION_NAME →
      ∃ e, (get_alarms st hostclass ags).1 = .error e) := by
  refine ⟨fun sect => ⟨fun h => ?_, fun h => ?_, fun h => decode_section_name_short sect h⟩,
    fun st hostclass ags s hmem hlen hn hd => ?_⟩
  · simp [decode_section_name, h]
  · simp [decode_section_name, h]
  · exact getAlarmsGo_error_of_malformed hostclass ags s hlen hn hd
      st.config.sections st [] hmem

/-- Witness for C4: the three decode branches at concrete section names, and
an aborted resolution over a config containing the malformed section
`badsection`. -/
theorem c4_section_decoding_witness :
    decode_section_name "team.AWS/RDS.metric.myhostclass" =
      .ok ("team", "AWS/RDS", "metric", some "myhostclass") ∧
    decode_section_name "t.ns.ClusterStatus.red.hc" =
      .ok ("t", "ns", "ClusterStatus.red", some "hc") ∧
    decode_section_name "t.ns.m" = .ok ("t", "ns", "m", none) ∧
    decode_section_name "a.b" =
      .error (.alarmConfigError "Skipping non-alarm like config section a.b.") ∧
    (∃ e, (get_alarms stBad "h" none).1 = .error e) := by
  refine ⟨?_, ?_, ?_, ?_, ?_⟩
  · exact ((c4_section_decoding.1 "team.AWS/RDS.metric.myhostclass").1 (by decide)).trans
      (by decide)
  · exact ((c4_section_decoding.1 "t.ns.ClusterStatus.red.hc").1 (by decide)).trans
      (by decide)
  · exact ((c4_section_decoding.1 "t.ns.m").2.1 (by decide)).trans (by decide)
  · exact (c4_section_decoding.1 "a.b").2.2 (by decide)
  · exact c4_section_decoding.2 stBad "h" none "badsection" (by decide) (by decide)
      (by decide) (by decide)

set_option maxRecDepth 8000 in
/-- In hostclass-specific mode, with the parent section present, every key
the resolver does not itself write resolves to child value, else parent
value, else defaults value. -/
theorem specDict_layering (st : DiscoAlarmsConfig)
    (team nspace metric_name hostclass : String) (ags : Option String)
    (k : String) (hmemo : memoOk st)
    (hpar : st.config.has_section (pyJoin '.' [team, nspace, metric_name]) = true)
    (hk : k ∉ synthesizedKeys) :
    dget ((specDict st team nspace metric_name hostclass true ags).1.getD []) k =
      ((dget (st.config.itemsMap (pyJoin '.' [team, nspace, metric_name, hostclass])) k).or
        ((dget (st.config.itemsMap (pyJoin '.' [team, nspace, metric_name])) k).or
          (dget (get_defaults st.config) k))) := by
  simp only [synthesizedKeys, List.mem_cons, List.mem_singleton, not_or] at hk
  obtain ⟨h1, h2, h3, h4, h5, h6, h7, h8, -⟩ := by
    push_neg at hk
    exact hk
  simp only [specDict, defaultsProp_fst st hmemo, defaultsProp_snd st hmemo]
  simp only [hpar, if_true]
  cases hes : st.elasticsearch <;> cases ags <;> simp only [hes] <;> repeat' split
  all_goals
    simp_all [dset, dupdate, dget_append, dget_singleton, dget_cons, dget_nil,
      Option.or_assoc]

/-- C1.  Merge precedence in hostclass-specific resolution: for every option
key the resolver itself does not synthesize, the resolved value is the child
section's, else the parent section's, else the defaults section's; and on the
concrete layering defaults `\x7bperiod: 60\x7d`, parent `\x7bperiod: 300,
statistic: Average\x7d`, child `\x7bperiod: 120\x7d` the result has
`period = 120` and `statistic = Average`. -/
theorem c1_merge_precedence :
    (∀ (st : DiscoAlarmsConfig) (team nspace metric_name hostclass : String)
        (ags : Option String) (k : String),
      memoOk st →
      st.config.has_section (pyJoin '.' [team, nspace, metric_name]) = true →
      k ∉ synthesizedKeys →
      dget ((specDict st team nspace metric_name hostclass true ags).1.getD []) k =
        ((dget (st.config.itemsMap (pyJoin '.' [team, nspace, metric_name, hostclass])) k).or
          ((dget (st.config.itemsMap (pyJoin '.' [team, nspace, metric_name])) k).or
            (dget (get_defaults st.config) k)))) ∧
    (dget ((specDict stMerge "team1" "ns1" "m1" "host1" true none).1.getD []) "period" =
        some "120" ∧
      dget ((specDict stMerge "team1" "ns1" "m1" "host1" true none).1.getD []) "statistic" =
        some "Average") := by
  refine ⟨fun st team nspace metric_name hostclass ags k hmemo hpar hk =>
    specDict_layering st team nspace metric_name hostclass ags k hmemo hpar hk, ?_, ?_⟩
  all_goals decide

/-- Witness for C1's general part: the precedence equation instantiated on
the concrete `stMerge` config at key `period`. -/
theorem c1_merge_precedence_witness :
    dget ((specDict stMerge "team1" "ns1" "m1" "host1" true none).1.getD []) "period" =
      ((dget (stMerge.config.itemsMap (pyJoin '.' ["team1", "ns1", "m1", "host1"])) "period").or
        ((dget (stMerge.config.itemsMap (pyJoin '.' ["team1", "ns1", "m1"])) "period").or
          (dget (get_defaults stMerge.config) "period"))) :=
  c1_merge_precedence.1 stMerge "team1" "ns1" "m1" "host1" none "period"
    (Or.inl rfl) (by decide) (by decide)

/-- Hostclass-specific resolution always produces an option mapping. -/
theorem specDict_specific_isSome (st : DiscoAlarmsConfig)
    (team nspace metric_name hostclass : String) (ags : Option String) :
    (specDict st team nspace metric_name hostclass true ags).1 ≠ none := by
  simp only [specDict]
  repeat' split
  all_goals simp_all

/-- C2.  Hostclass shadowing: when both the generic section
`team.ns.metric` and the hostclass-qualified section `team.ns.metric.hostX`
exist, resolving for `hostX` in generic mode returns no options, while
hostclass-specific mode returns the merged child options. -/
theorem c2_hostclass_shadowing (st : DiscoAlarmsConfig)
    (team nspace metric_name hostX : String) (ags : Option String)
    (hmemo : memoOk st)
    (hpar : st.config.has_section (pyJoin '.' [team, nspace, metric_name]) = true)
    (hchild : st.config.has_section (pyJoin '.' [team, nspace, metric_name, hostX]) = true) :
    (specDict st team nspace metric_name hostX false ags).1 = none ∧
    (specDict st team nspace metric_name hostX true ags).1 ≠ none ∧
    (∀ k, k ∉ synthesizedKeys →
      dget ((specDict st team nspace metric_name hostX true ags).1.getD []) k =
        ((dget (st.config.itemsMap (pyJoin '.' [team, nspace, metric_name, hostX])) k).or
          ((dget (st.config.itemsMap (pyJoin '.' [team, nspace, metric_name])) k).or
            (dget (get_defaults st.config) k)))) := by
  refine ⟨?_, specDict_specific_isSome st team nspace metric_name hostX ags,
    fun k hk => specDict_layering st team nspace metric_name hostX ags k hmemo hpar hk⟩
  simp only [specDict, defaultsProp_snd st hmemo]
  simp [hchild]

/-- Witness for C2 on the concrete `stMerge` config. -/
theorem c2_hostclass_shadowing_witness :
    (specDict stMerge "team1" "ns1" "m1" "host1" false none).1 = none ∧
    (specDict stMerge "team1" "ns1" "m1" "host1" true none).1 ≠ none ∧
    dget ((specDict stMerge "team1" "ns1" "m1" "host1" true none).1.getD []) "statistic" =
      ((dget (stMerge.config.itemsMap (pyJoin '.' ["team1", "ns1", "m1", "host1"])) "statistic").or
        ((dget (stMerge.config.itemsMap (pyJoin '.' ["team1", "ns1", "m1"])) "statistic").or
          (dget (get_defaults stMerge.config) "statistic"))) := by
  obtain ⟨a, b, c⟩ := c2_hostclass_shadowing stMerge "team1" "ns1" "m1" "host1" none
    (Or.inl rfl) (by decide) (by decide)
  exact ⟨a, b, c "statistic" (by decide)⟩

/-- C3.  Threshold processing: for each of `threshold_max` / `threshold_min`
present in a merged option set, the threshold loop of `get_alarms` appends
exactly one alarm record (threshold type `max` / `min`, name ending in
`_max` / `_min`) when the value is a digit string, raises a `ConfigError`
citing the key and the full option set when it is not, and appends exactly
two records when both keys hold valid values. -/
theorem c3_threshold_processing :
    (∀ (options : Dict) (vmax vmin : String) (a b : DiscoAlarmConfig),
      dget options "threshold_max" = some vmax → pyIsdigit vmax = true →
      dget options "threshold_min" = some vmin → pyIsdigit vmin = true →
      DiscoAlarmConfig.mk? options true = .ok a →
      DiscoAlarmConfig.mk? options false = .ok b →
      thresholdLoop options [] = .ok [a, b] ∧
      a.threshold_type = "max" ∧ b.threshold_type = "min" ∧
      (∃ p, a.name = p ++ "_max") ∧ (∃ q, b.name = q ++ "_min")) ∧
    (∀ (options : Dict) (vmax : String) (a : DiscoAlarmConfig),
      dget options "threshold_max" = some vmax → pyIsdigit vmax = true →
      dget options "threshold_min" = none →
      DiscoAlarmConfig.mk? options true = .ok a →
      thresholdLoop options [] = .ok [a]) ∧
    (∀ (options : Dict) (vmin : String) (b : DiscoAlarmConfig),
      dget options "threshold_max" = none →
      dget options "threshold_min" = some vmin → pyIsdigit vmin = true →
      DiscoAlarmConfig.mk? options false = .ok b →
      thresholdLoop options [] = .ok [b]) ∧
    (∀ (options : Dict) (v : String) (alarms : List DiscoAlarmConfig),
      dget options "threshold_max" = some v → pyIsdigit v = false →
      thresholdLoop options alarms = .error (.alarmConfigError
        ("Not a valid threshold value for threshold_max: " ++ dictRepr options))) ∧
    (∀ (options : Dict) (v : String) (alarms : List DiscoAlarmConfig),
      dget options "threshold_max" = none →
      dget options "threshold_min" = some v → pyIsdigit v = false →
      thresholdLoop options alarms = .error (.alarmConfigError
        ("Not a valid threshold value for threshold_min: " ++ dictRepr options))) := by
  have hmm : ("_" : String) ++ "max" = "_max" := by decide
  have hmn : ("_" : String) ++ "min" = "_min" := by decide
  refine ⟨?_, ?_, ?_, ?_, ?_⟩
  · intro options vmax vmin a b hmax hdmax hmin hdmin hka hkb
    have hta : a.threshold_type = "max" := by
      simpa using mk?_threshold_type options true a hka
    have htb : b.threshold_type = "min" := by
      simpa using mk?_threshold_type options false b hkb
    refine ⟨?_, hta, htb,
      ⟨pyJoin '_' [a.team, a.environment, a.hostclass, a.metric_name],
        by rw [name_split a, hta, hmm]⟩,
      ⟨pyJoin '_' [b.team, b.environment, b.hostclass, b.metric_name],
        by rw [name_split b, htb, hmn]⟩⟩
    have h1 : thresholdStep options "threshold_max" [] = .ok [a] := by
      simp [thresholdStep, dmem, hmax, hdmax, hka, Except.map]
    have h2 : thresholdStep options "threshold_min" [a] = .ok [a, b] := by
      simp [thresholdStep, dmem, hmin, hdmin, hkb, Except.map]
    simp [thresholdLoop, h1, h2, bind, Except.bind]
  · intro options vmax a hmax hdmax hmin hka
    have h1 : thresholdStep options "threshold_max" [] = .ok [a] := by
      simp [thresholdStep, dmem, hmax, hdmax, hka, Except.map]
    have h2 : thresholdStep options "threshold_min" [a] = .ok [a] := by
      simp [thresholdStep, dmem, hmin]
    simp [thresholdLoop, h1, h2, bind, Except.bind]
  · intro options vmin b hmax hmin hdmin hkb
    have h1 : thresholdStep options "threshold_max" [] = .ok [] := by
      simp [thresholdStep, dmem, hmax]
    have h2 : thresholdStep options "threshold_min" [] = .ok [b] := by
      simp [thresholdStep, dmem, hmin, hdmin, hkb, Except.map]
    simp [thresholdLoop, h1, h2, bind, Except.bind]
  · intro options v alarms hmax hdmax
    have h1 : thresholdStep options "threshold_max" alarms = .error (.alarmConfigError
        ("Not a valid threshold value for threshold_max: " ++ dictRepr options)) := by
      simp [thresholdStep, dmem, hmax, hdmax]
    simp [thresholdLoop, h1, bind, Except.bind]
  · intro options v alarms hmax hmin hdmin
    have h1 : thresholdStep options "threshold_max" alarms = .ok alarms := by
      simp [thresholdStep, dmem, hmax]
    have h2 : thresholdStep options "threshold_min" alarms = .error (.alarmConfigError
        ("Not a valid threshold value for threshold_min: " ++ dictRepr options)) := by
      simp [thresholdStep, dmem, hmin, hdmin]
    simp [thresholdLoop, h1, h2, bind, Except.bind]

/-- Witness for C3: `optsFull` yields exactly the two fixture records, and
the two error branches fire on `optsBadThresh` and on a min-only bad value. -/
theorem c3_threshold_processing_witness :
    (thresholdLoop optsFull [] = .ok [alarmMaxFx, alarmMinFx] ∧
      alarmMaxFx.threshold_type = "max" ∧ alarmMinFx.threshold_type = "min" ∧
      (∃ p, alarmMaxFx.name = p ++ "_max") ∧ (∃ q, alarmMinFx.name = q ++ "_min")) ∧
    thresholdLoop optsBadThresh [] = .error (.alarmConfigError
      ("Not a valid threshold value for threshold_max: " ++ dictRepr optsBadThresh)) := by
  constructor
  · exact c3_threshold_processing.1 optsFull "80" "10" alarmMaxFx alarmMinFx
      (by decide) (by decide) (by decide) (by decide) (by decide) (by decide)
  · exact c3_threshold_processing.2.2.2.1 optsBadThresh "notanumber" []
      (by decide) (by decide)

/-- C7.  Dimensions derivation: empty for log-pattern metrics; the
environment-hostclass instance identifier for `AWS/RDS`; the hashed
load-balancer id for `AWS/ELB`; domain name and client id for `AWS/ES`;
otherwise the env_hostclass pair for custom metrics and the autoscaling
group name for the rest. -/
theorem c7_dimensions (sha256hex : String → String) (a : DiscoAlarmConfig) :
    (a.log_pattern_metric = true →
      DiscoAlarmConfig.dimensions sha256hex a = .ok []) ∧
    (a.log_pattern_metric = false → a.nspace = "AWS/RDS" →
      DiscoAlarmConfig.dimensions sha256hex a =
        .ok [("DBInstanceIdentifier", some (pyJoin '-' [a.environment, a.hostclass]))]) ∧
    (a.log_pattern_metric = false → a.nspace = "AWS/ELB" →
      DiscoAlarmConfig.dimensions sha256hex a =
        (get_elb_id sha256hex a.environment a.hostclass).map
          (fun i => [("LoadBalancerName", some i)])) ∧
    (a.log_pattern_metric = false → a.nspace = "AWS/ES" →
      DiscoAlarmConfig.dimensions sha256hex a =
        .ok [("DomainName", a.es_domain_name), ("ClientId", a.es_client_id)]) ∧
    (a.log_pattern_metric = false → a.nspace ≠ "AWS/RDS" → a.nspace ≠ "AWS/ELB" →
      a.nspace ≠ "AWS/ES" → a.custom_metric = true →
      DiscoAlarmConfig.dimensions sha256hex a =
        .ok [("env_hostclass", some (pyJoin '_' [a.environment, a.hostclass]))]) ∧
    (a.log_pattern_metric = false → a.nspace ≠ "AWS/RDS" → a.nspace ≠ "AWS/ELB" →
      a.nspace ≠ "AWS/ES" → a.custom_metric = false →
      DiscoAlarmConfig.dimensions sha256hex a =
        .ok [("AutoScalingGroupName", a.autoscaling_group_name)]) := by
  refine ⟨fun h1 => ?_, fun h1 h2 => ?_, fun h1 h2 => ?_, fun h1 h2 => ?_,
    fun h1 h2 h3 h4 h5 => ?_, fun h1 h2 h3 h4 h5 => ?_⟩
  · simp [DiscoAlarmConfig.dimensions, h1]
  · simp [DiscoAlarmConfig.dimensions, h1, h2]
  · simp [DiscoAlarmConfig.dimensions, h1, h2]
  · simp [DiscoAlarmConfig.dimensions, h1, h2]
  · simp [DiscoAlarmConfig.dimensions, h1, h2, h3, h4, h5]
  · simp [DiscoAlarmConfig.dimensions, h1, h2, h3, h4, h5]

/-- Witness for C7: one concrete record per dimensions branch. -/
theorem c7_dimensions_witness :
    DiscoAlarmConfig.dimensions (fun _ => "0123456789abcdef0123456789abcdef01")
        { alarmMaxFx with log_pattern_metric := true } = .ok [] ∧
    DiscoAlarmConfig.dimensions (fun _ => "h")
        { alarmMaxFx with nspace := "AWS/RDS" } =
      .ok [("DBInstanceIdentifier", some "e-h")] ∧
    DiscoAlarmConfig.dimensions (fun _ => "0123456789abcdef0123456789abcdef01")
        { alarmMaxFx with nspace := "AWS/ELB" } =
      .ok [("LoadBalancerName", some "0123456789abcdef0123456789abcdef")] ∧
    DiscoAlarmConfig.dimensions (fun _ => "h")
        { alarmMaxFx with
          nspace := "AWS/ES"
          es_domain_name := some "dom"
          es_client_id := some "cid" } =
      .ok [("DomainName", some "dom"), ("ClientId", some "cid")] ∧
    DiscoAlarmConfig.dimensions (fun _ => "h")
        { alarmMaxFx with custom_metric := true } =
      .ok [("env_hostclass", some "e_h")] ∧
    DiscoAlarmConfig.dimensions (fun _ => "h")
        { alarmMaxFx with autoscaling_group_name := some "asg" } =
      .ok [("AutoScalingGroupName", some "asg")] := by
  refine ⟨?_, ?_, ?_, ?_, ?_, ?_⟩
  · exact (c7_dimensions _ _).1 (by decide)
  · exact ((c7_dimensions _ _).2.1 (by decide) (by decide)).trans (by decide)
  · exact ((c7_dimensions _ _).2.2.1 (by decide) (by decide)).trans (by decide)
  · exact ((c7_dimensions _ _).2.2.2.1 (by decide) (by decide)).trans (by decide)
  · exact ((c7_dimensions _ _).2.2.2.2.1 (by decide) (by decide) (by decide) (by decide)
      (by decide)).trans (by decide)
  · exact ((c7_dimensions _ _).2.2.2.2.2 (by decide) (by decide) (by decide) (by decide)
      (by decide)).trans (by decide)

/-- C8.  Notification resolution, per key/value entry of the notifications
section: fewer than 3 underscore segments raise a `ConfigError`; entries
whose segment at index 1 differs from the target environment are skipped
without error; a matching environment with a level (last segment) outside
the closed level set raises a `ConfigError`; otherwise the entry yields a
notification whose endpoints are the value split on commas. -/
theorem c8_notifications (environment k v : String) :
    ((pySplit k '_').length < 3 →
      notifStep environment k v = .error (.alarmConfigError
        ("Underscores must separate team name, env name and notification level: " ++ k))) ∧
    ((pySplit k '_').length ≥ 3 →
      (pySplit k '_').getD 1 "" ≠ environment →
      notifStep environment k v = .ok none) ∧
    ((pySplit k '_').length ≥ 3 →
      (pySplit k '_').getD 1 "" = environment →
      (pySplit k '_').getD ((pySplit k '_').length - 1) "" ∉ NOTIFICATION_LEVELS →
      notifStep environment k v = .error (.alarmConfigError
        ("Unsupported notification level: " ++
          (pySplit k '_').getD ((pySplit k '_').length - 1) ""))) ∧
    ((pySplit k '_').length ≥ 3 →
      (pySplit k '_').getD 1 "" = environment →
      (pySplit k '_').getD ((pySplit k '_').length - 1) "" ∈ NOTIFICATION_LEVELS →
      notifStep environment k v = .ok (some ⟨k, pySplit v ','⟩)) := by
  refine ⟨fun h1 => ?_, fun h1 h2 => ?_, fun h1 h2 h3 => ?_, fun h1 h2 h3 => ?_⟩
  · simp [notifStep, h1]
  · have h1' : ¬ (pySplit k '_').length < 3 := by omega
    simp only [List.getD, List.get?_eq_getElem?] at h2
    simp [notifStep, h1', h2]
  · have h1' : ¬ (pySplit k '_').length < 3 := by omega
    simp only [List.getD, List.get?_eq_getElem?] at h2 h3
    simp [notifStep, h1', h2, h3]
  · have h1' : ¬ (pySplit k '_').length < 3 := by omega
    simp only [List.getD, List.get?_eq_getElem?] at h2 h3
    simp [notifStep, h1', h2, h3]

/-- Witness for C8 at four concrete notification entries. -/
theorem c8_notifications_witness :
    notifStep "prod" "ab" "x" = .error (.alarmConfigError
      "Underscores must separate team name, env name and notification level: ab") ∧
    notifStep "prod" "team1_stage_critical" "a@x.com" = .ok none ∧
    notifStep "prod" "team1_prod_bogus" "x" =
      .error (.alarmConfigError "Unsupported notification level: bogus") ∧
    notifStep "prod" "team1_prod_critical" "a@x.com,b@x.com" =
      .ok (some ⟨"team1_prod_critical", ["a@x.com", "b@x.com"]⟩) := by
  refine ⟨?_, ?_, ?_, ?_⟩
  · exact (c8_notifications "prod" "ab" "x").1 (by decide)
  · exact (c8_notifications "prod" "team1_stage_critical" "a@x.com").2.1
      (by decide) (by decide)
  · exact ((c8_notifications "prod" "team1_prod_bogus" "x").2.2.1
      (by decide) (by decide) (by decide)).trans (by decide)
  · exact ((c8_notifications "prod" "team1_prod_critical" "a@x.com,b@x.com").2.2.2
      (by decide) (by decide) (by decide)).trans (by decide)

/-- C9, counterexample.  The constructor accepts the integer literal `-5`
for `duration`: the record is constructed successfully and its duration is
negative, so constructed records need not have positive duration. -/
theorem c9_counterexample :
    DiscoAlarmConfig.mk? optsNeg true = .ok alarmNeg ∧
    alarmNeg.duration = -5 ∧ ¬ (0 < alarmNeg.duration) := by
  refine ⟨by decide, by decide, by decide⟩

/-- C9, amended.  Every successfully constructed record has `duration` and
`period` equal to the Python-`int`-parsed values of the corresponding
options (which may be zero or negative); construction fails when either
value is not an integer literal.  Positivity is not enforced. -/
theorem c9_amended_int_validation :
    (∀ (o : Dict) (m : Bool) (a : DiscoAlarmConfig),
      DiscoAlarmConfig.mk? o m = .ok a →
      (∃ s, dget o "duration" = some s ∧ pyIntParse s = some a.duration) ∧
      (∃ s, dget o "period" = some s ∧ pyIntParse s = some a.period)) ∧
    (∀ (o : Dict) (m : Bool) (a : DiscoAlarmConfig) (s : String),
      dget o "duration" = some s → pyIntParse s = none →
      DiscoAlarmConfig.mk? o m ≠ .ok a) ∧
    (∀ (o : Dict) (m : Bool) (a : DiscoAlarmConfig) (s : String),
      dget o "period" = some s → pyIntParse s = none →
      DiscoAlarmConfig.mk? o m ≠ .ok a) := by
  refine ⟨fun o m a h => mk?_parses_ints o m a h, ?_, ?_⟩
  · intro o m a s hs hnone heq
    obtain ⟨⟨s', hs', hp⟩, -⟩ := mk?_parses_ints o m a heq
    rw [hs] at hs'
    cases hs'
    rw [hp] at hnone
    cases hnone
  · intro o m a s hs hnone heq
    obtain ⟨-, ⟨s', hs', hp⟩⟩ := mk?_parses_ints o m a heq
    rw [hs] at hs'
    cases hs'
    rw [hp] at hnone
    cases hnone

/-- Witness for the amended C9: the parsed-integer equations on `optsFull`,
and a rejected construction over a non-integer period. -/
theorem c9_amended_int_validation_witness :
    ((∃ s, dget optsFull "duration" = some s ∧ pyIntParse s = some alarmMaxFx.duration) ∧
      (∃ s, dget optsFull "period" = some s ∧ pyIntParse s = some alarmMaxFx.period)) ∧
    DiscoAlarmConfig.mk? optsBadPeriod true ≠ .ok alarmMaxFx := by
  constructor
  · exact c9_amended_int_validation.1 optsFull true alarmMaxFx (by decide)
  · exact c9_amended_int_validation.2.2 optsBadPeriod true alarmMaxFx "sixty"
      (by decide) (by decide)

/-! ### Split/join round-trip infrastructure -/

theorem data_mk (l : List Char) : (String.mk l).data = l := rfl

theorem mk_data (s : String) : String.mk s.data = s := rfl

theorem getD_concat_length (l : List String) (a d : String) :
    (l ++ [a]).getD l.length d = a := by
  simp [List.getD, List.getElem?_append_right]

theorem splitOn_append_sep_last (sep : Char) (X : List Char) (hX : sep ∉ X) :
    ∀ M : List Char, (M ++ sep :: X).splitOn sep = M.splitOn sep ++ [X] := by
  intro M
  induction M with
  | nil =>
    have hX' : ∀ y ∈ X, ¬ ((y == sep) = true) := fun y hy => by
      simp only [beq_iff_eq]
      rintro rfl
      exact hX hy
    simp [List.splitOn, List.splitOnP_cons, List.splitOnP_eq_single _ _ hX']
  | cons c M' ih =>
    unfold List.splitOn at *
    by_cases hc : c = sep
    · subst hc
      simp [List.splitOnP_cons, ih]
    · have hcb : (c == sep) = false := beq_eq_false_iff_ne.mpr hc
      simp only [List.cons_append, List.splitOnP_cons, hcb, Bool.false_eq_true, if_false, ih]
      cases hsp : M'.splitOnP (· == sep) with
      | nil => exact absurd hsp (List.splitOnP_ne_nil _ M')
      | cons g gs => simp [hsp, List.modifyHead]

theorem splitOn_join_round (T E H M X : List Char)
    (hT : '_' ∉ T) (hE : '_' ∉ E) (hH : '_' ∉ H) (hX : '_' ∉ X) :
    (List.intercalate ['_'] [T, E, H, M, X]).splitOn '_' =
      T :: E :: H :: (M.splitOn '_' ++ [X]) := by
  have first : ∀ (A rest : List Char), '_' ∉ A →
      (A ++ '_' :: rest).splitOn '_' = A :: rest.splitOn '_' := by
    intro A rest hA
    unfold List.splitOn
    rw [List.splitOnP_first _ _ (fun y hy => by simp; rintro rfl; exact hA hy) '_' (by simp)]
  have hjoin : List.intercalate ['_'] [T, E, H, M, X] =
      T ++ '_' :: (E ++ '_' :: (H ++ '_' :: (M ++ '_' :: X))) := by
    simp [List.intercalate]
  rw [hjoin, first T _ hT, first E _ hE, first H _ hH,
    splitOn_append_sep_last '_' X hX M]

theorem pyJoin_split_id (m : String) :
    pyJoin '_' ((m.data.splitOn '_').map String.mk) = m := by
  unfold pyJoin
  rw [List.map_map]
  have hcomp : String.data ∘ String.mk = id := rfl
  rw [hcomp, List.map_id, List.intercalate_splitOn m.data '_', mk_data]

/-- C6, counterexample.  Alarm-name encoding followed by decoding is lossless
on a metric name that does contain an underscore (`a_b`), so losslessness is
not restricted to underscore-free metric names. -/
theorem c6_counterexample :
    decode_alarm_name (pyJoin '_' ["t", "e", "h", "a_b", "max"]) =
      some ⟨some "t", "e", "h", "a_b", "max"⟩ ∧
    '_' ∈ ("a_b" : String).data := by
  refine ⟨by decide, by decide⟩

/-- C6, amended.  Encoding team, environment, hostclass, metric name and
threshold type with `_` (as the `name` property does) and decoding recovers
all five fields whenever team, environment, hostclass and threshold type are
underscore-free — regardless of underscores in the metric name.  (The
documented lossy case concerns names that lack a team segment, where the
4-segment decode branch misassigns fields.) -/
theorem c6_round_trip (t e h m x : String)
    (ht : '_' ∉ t.data) (he : '_' ∉ e.data) (hh : '_' ∉ h.data) (hx : '_' ∉ x.data) :
    decode_alarm_name (pyJoin '_' [t, e, h, m, x]) = some ⟨some t, e, h, m, x⟩ := by
  have hparts : pySplit (pyJoin '_' [t, e, h, m, x]) '_' =
      t :: e :: h :: ((m.data.splitOn '_').map String.mk ++ [x]) := by
    show ((String.mk (List.intercalate ['_']
        [t.data, e.data, h.data, m.data, x.data])).data.splitOn '_').map String.mk = _
    rw [data_mk, splitOn_join_round t.data e.data h.data m.data x.data ht he hh hx]
    simp [mk_data]
  have Klen : 1 ≤ (m.data.splitOn '_').length := by
    cases hsp : m.data.splitOn '_' with
    | nil => exact absurd hsp (List.splitOnP_ne_nil _ m.data)
    | cons g gs => simp
  unfold decode_alarm_name
  rw [hparts]
  have hlen : (t :: e :: h :: ((m.data.splitOn '_').map String.mk ++ [x])).length ≥ 5 := by
    simp
    omega
  rw [if_pos hlen]
  have hlast : (t :: e :: h :: ((m.data.splitOn '_').map String.mk ++ [x])).getD
      ((t :: e :: h :: ((m.data.splitOn '_').map String.mk ++ [x])).length - 1) "" = x := by
    have : (t :: e :: h :: ((m.data.splitOn '_').map String.mk ++ [x])) =
        (t :: e :: h :: (m.data.splitOn '_').map String.mk) ++ [x] := by simp
    rw [this]
    have hl : ((t :: e :: h :: (m.data.splitOn '_').map String.mk) ++ [x]).length - 1 =
        (t :: e :: h :: (m.data.splitOn '_').map String.mk).length := by
      simp
    rw [hl, getD_concat_length]
  rw [hlast]
  have hmetric : pyJoin '_'
      (((t :: e :: h :: ((m.data.splitOn '_').map String.mk ++ [x])).drop 3).dropLast) = m := by
    have : ((t :: e :: h :: ((m.data.splitOn '_').map String.mk ++ [x])).drop 3) =
        (m.data.splitOn '_').map String.mk ++ [x] := by simp
    rw [this, List.dropLast_concat, pyJoin_split_id]
  rw [hmetric]
  rfl

/-- Witness for the amended C6 at a metric name containing underscores. -/
theorem c6_round_trip_witness :
    decode_alarm_name (pyJoin '_' ["team1", "prod", "web", "disk_used_percent", "min"]) =
      some ⟨some "team1", "prod", "web", "disk_used_percent", "min"⟩ :=
  c6_round_trip "team1" "prod" "web" "disk_used_percent" "min"
    (by decide) (by decide) (by decide) (by decide)

/-! ### Frame lemmas for the resolver state -/

theorem setMemo_idem (st : DiscoAlarmsConfig) : setMemo (setMemo st) = setMemo st := rfl

theorem memoOk_setMemo (st : DiscoAlarmsConfig) : memoOk (setMemo st) := Or.inr rfl

theorem defaultsProp_setMemo (st : DiscoAlarmsConfig) :
    defaultsProp (setMemo st) = (get_defaults st.config, setMemo st) := by
  unfold defaultsProp setMemo
  dsimp only
  split <;> rfl

theorem defaultsProp_congr (st : DiscoAlarmsConfig) (h : memoOk st) :
    defaultsProp (setMemo st) = defaultsProp st := by
  rw [defaultsProp_setMemo]
  exact Prod.ext (defaultsProp_fst st h).symm (defaultsProp_snd st h).symm

theorem specDict_congr (st : DiscoAlarmsConfig)
    (team nspace metric_name hostclass : String) (sp : Bool) (ags : Option String)
    (h : memoOk st) :
    specDict (setMemo st) team nspace metric_name hostclass sp ags =
      specDict st team nspace metric_name hostclass sp ags := by
  unfold specDict
  rw [defaultsProp_congr st h]

theorem specDict_snd_eq (st : DiscoAlarmsConfig)
    (team nspace metric_name hostclass : String) (sp : Bool) (ags : Option String) :
    (specDict st team nspace metric_name hostclass sp ags).2 = (defaultsProp st).2 := by
  unfold specDict
  dsimp only
  split <;> rfl

theorem getAlarmsGo_frame (hostclass : String) (ags : Option String) :
    ∀ (secs : List String) (st : DiscoAlarmsConfig) (alarms : List DiscoAlarmConfig),
      memoOk st →
      (getAlarmsGo hostclass ags (setMemo st) secs alarms).1 =
        (getAlarmsGo hostclass ags st secs alarms).1 ∧
      ((getAlarmsGo hostclass ags st secs alarms).2 = st ∨
        (getAlarmsGo hostclass ags st secs alarms).2 = setMemo st) := by
  intro secs
  induction secs with
  | nil => exact fun st alarms h => ⟨rfl, Or.inl rfl⟩
  | cons sect rest ih =>
    intro st alarms h
    rw [getAlarmsGo, getAlarmsGo]
    cases hdec : decode_section_name sect with
    | error e =>
      by_cases hres : [NOTIFICATION_SECTION_NAME, DEFAULT_SECTION_NAME].contains sect
      · simp only [hres, if_true]
        exact ih st alarms h
      · simp only [hres, Bool.false_eq_true, if_false]
        exact ⟨trivial, Or.inl trivial⟩
    | ok tup =>
      obtain ⟨team, nspace, metric_name, section_hostclass⟩ := tup
      dsimp only
      have hes : (setMemo st).elasticsearch = st.elasticsearch := rfl
      simp only [hes]
      split
      · exact ih st alarms h
      · split
        · exact ih st alarms h
        · rw [specDict_congr st team nspace metric_name hostclass
            (section_hostclass == some hostclass) ags h]
          have hsnd : (specDict st team nspace metric_name hostclass
              (section_hostclass == some hostclass) ags).2 = setMemo st := by
            rw [specDict_snd_eq, defaultsProp_snd st h]
            rfl
          rw [hsnd]
          cases hfst : (specDict st team nspace metric_name hostclass
              (section_hostclass == some hostclass) ags).1 with
          | none =>
            obtain ⟨-, h2⟩ := ih (setMemo st) alarms (memoOk_setMemo st)
            rw [setMemo_idem] at h2
            exact ⟨rfl, Or.inr (h2.elim id id)⟩
          | some options =>
            by_cases hemp : options.isEmpty
            · simp only [hemp, if_true]
              obtain ⟨-, h2⟩ := ih (setMemo st) alarms (memoOk_setMemo st)
              rw [setMemo_idem] at h2
              exact ⟨by first | rfl | trivial, Or.inr (h2.elim id id)⟩
            · simp only [hemp, Bool.false_eq_true, if_false]
              cases hthr : thresholdLoop options alarms with
              | ok alarms2 =>
                obtain ⟨-, h2⟩ := ih (setMemo st) alarms2 (memoOk_setMemo st)
                rw [setMemo_idem] at h2
                exact ⟨by first | rfl | trivial, Or.inr (h2.elim id id)⟩
              | error e =>
                exact ⟨trivial, Or.inr rfl⟩

/-- C10.  `get_alarms` never mutates the memoized defaults into anything but
the defaults section as read from the config: starting from a fresh
resolver, after a call the memo is still empty or holds exactly the defaults
section, the config is unchanged, and a repeated call with the same
hostclass and collaborators returns the same alarm list. -/
theorem c10_defaults_frame (st : DiscoAlarmsConfig) (hostclass : String)
    (ags : Option String) (hfresh : st._defaults = none) :
    ((get_alarms st hostclass ags).2._defaults = none ∨
      (get_alarms st hostclass ags).2._defaults = some (get_defaults st.config)) ∧
    (get_alarms st hostclass ags).2.config = st.config ∧
    (get_alarms (get_alarms st hostclass ags).2 hostclass ags).1 =
      (get_alarms st hostclass ags).1 := by
  have hmemo : memoOk st := Or.inl hfresh
  obtain ⟨hcongr, hstate⟩ :=
    getAlarmsGo_frame hostclass ags st.config.sections st [] hmemo
  have e1 : get_alarms st hostclass ags =
      getAlarmsGo hostclass ags st st.config.sections [] := rfl
  rcases hstate with hst | hst
  · refine ⟨Or.inl ?_, ?_, ?_⟩
    · rw [e1, hst, hfresh]
    · rw [e1, hst]
    · rw [e1, hst, ← e1]
  · refine ⟨Or.inr ?_, ?_, ?_⟩
    · rw [e1, hst]
      rfl
    · rw [e1, hst]
      rfl
    · rw [e1, hst]
      exact hcongr

/-- Witness for C10 on the concrete `stBoth` resolver. -/
theorem c10_defaults_frame_witness :
    ((get_alarms stBoth "h" none).2._defaults = none ∨
      (get_alarms stBoth "h" none).2._defaults = some (get_defaults stBoth.config)) ∧
    (get_alarms stBoth "h" none).2.config = stBoth.config ∧
    (get_alarms (get_alarms stBoth "h" none).2 "h" none).1 =
      (get_alarms stBoth "h" none).1 :=
  c10_defaults_frame stBoth "h" none rfl

end Asiaq
